import Mathlib

/-!
Verification development for the knex-utils schema-introspection generator
(src/lib/consolidate.js) and the database-lifecycle guards (src/index.js).

The JavaScript functions are shallowly embedded as executable Lean
definitions.  Logging is modelled by returning the list of warning
messages; a thrown JS error is modelled by `Except.error`; JS `null` /
`undefined` string fields are modelled by `Option String`.
-/

/-! ## JS string helpers -/

/-- Character-list prefix test, used to model JS `String.prototype.startsWith`. -/
def startsWithList : List Char → List Char → Bool
  | [], _ => true
  | _ :: _, [] => false
  | p :: ps, c :: cs => p == c && startsWithList ps cs

/-- The characters of the auto-increment sequence marker `nextval`. -/
def nextvalList : List Char := "nextval".data

/-- Replace the first occurrence of `pat` in a character list by `rep`,
modelling JS `String.prototype.replace` with a string (or non-global regex)
pattern.  An absent pattern leaves the list unchanged. -/
def replaceFirstAux (pat rep : List Char) : List Char → List Char
  | [] => []
  | c :: rest =>
    if startsWithList pat (c :: rest) then rep ++ (c :: rest).drop pat.length
    else c :: replaceFirstAux pat rep rest

/-- Replace the first occurrence of `pat` in `s` by `rep` (JS `replace`). -/
def replaceFirst (s pat rep : String) : String :=
  ⟨replaceFirstAux pat.data rep.data s.data⟩

/-- Remove every double-quote character, modelling JS `replace(/"/g, '')`. -/
def stripQuotes (s : String) : String :=
  ⟨s.data.filter (fun c => c ≠ '"')⟩

/-- JS regex `.` (no `s` flag): any character except line terminators. -/
def jsDotChar (c : Char) : Bool :=
  c ≠ '\n' && c ≠ '\r' && c.toNat ≠ 0x2028 && c.toNat ≠ 0x2029

/-- JS regex `\w`: ASCII letters, digits and underscore. -/
def wordChar (c : Char) : Bool :=
  c.isAlphanum || c = '_'

/-- A character matched by `[\w\s]`. -/
def wordOrSpace (c : Char) : Bool :=
  wordChar c || c.isWhitespace

/-- Does a character list match the anchored tail regex `(::[\w\s]+)?$`? -/
def castTail : List Char → Bool
  | [] => true
  | ':' :: ':' :: rest => rest ≠ [] && rest.all wordOrSpace
  | _ => false

/-- Does position `j` of `cs` witness a match of `^('.*')(::[\w\s]+)?$`
whose first capture group is `cs.take (j+1)`?  Requires a leading quote, a
closing quote at `j`, only `.`-matchable characters between them, and a
remainder matching the optional cast suffix. -/
def quotedAt (cs : List Char) (j : Nat) : Bool :=
  cs.head? == some '\'' && decide (1 ≤ j) && cs.get? j == some '\'' &&
    ((cs.take j).drop 1).all jsDotChar && castTail (cs.drop (j + 1))

/-- First capture group of JS `defaultValue.match(/^('.*')(::[\w\s]+)?$/)`:
the greedy `.*` makes the group end at the last viable closing quote. -/
def quotedMatch (s : String) : Option String :=
  match (List.range s.data.length).reverse.find? (fun j => quotedAt s.data j) with
  | some j => some ⟨s.data.take (j + 1)⟩
  | none => none

/-- Does position `j` of `cs` start a match of `::([\s\w]+)$`? -/
def castAt (cs : List Char) (j : Nat) : Bool :=
  match cs.drop j with
  | ':' :: ':' :: rest => rest ≠ [] && rest.all wordOrSpace
  | _ => false

/-- Capture group of JS `defaultValue.match(/::([\s\w]+)$/)`: the leftmost
`::` whose entire remainder is one or more word/space characters. -/
def castSuffixMatch (s : String) : Option String :=
  ((List.range s.data.length).find? (fun j => castAt s.data j)).map
    (fun j => ⟨s.data.drop (j + 2)⟩)

/-- Strip leading and trailing whitespace (the whitespace tolerance of both
JS `Number(...)` and `JSON.parse`). -/
def jsTrim (s : String) : String :=
  ⟨((s.data.dropWhile Char.isWhitespace).reverse.dropWhile Char.isWhitespace).reverse⟩

/-- Model of the JS `Number(...)` conversion restricted to the shapes the
repository's defaults use: surrounding whitespace is ignored, the empty
string converts to `0`, and optionally signed decimal integer literals
convert to their canonical rendering.  Everything else is `none` (NaN). -/
def jsNumber (s : String) : Option String :=
  let t := jsTrim s
  if t = "" then some "0"
  else
    let cs := t.data
    let ds := match cs with
      | '-' :: rest => rest
      | '+' :: rest => rest
      | _ => cs
    let neg : Bool := cs.head? == some '-'
    if ds ≠ [] && ds.all Char.isDigit then
      let n := ds.foldl (fun acc c => acc * 10 + (c.toNat - '0'.toNat)) 0
      some (if neg && n ≠ 0 then "-" ++ toString n else toString n)
    else none

/-! ## Model of the external sm-utils `Str.tryParseJson` -/

/-- A JavaScript value produced by a successful strict JSON parse, paired
with enough information to render it back into generated source text. -/
inductive jsVal where
  | jbool (b : Bool)
  | jnum (render : String)
  deriving Repr, DecidableEq

/-- Template-literal rendering of a parsed JS value. -/
def renderJsVal : jsVal → String
  | jsVal.jbool true => "true"
  | jsVal.jbool false => "false"
  | jsVal.jnum r => r

/-- A strict JSON integer-numeral literal `-?(0|[1-9][0-9]*)`, returning its
canonical JS rendering (so `-0` renders as `0`). -/
def jsonIntLit (s : String) : Option String :=
  let cs := s.data
  let ds := match cs with
    | '-' :: rest => rest
    | _ => cs
  if ds = [] then none
  else if ¬ ds.all Char.isDigit then none
  else if ds.length > 1 && ds.head? == some '0' then none
  else if cs = ['-', '0'] then some "0"
  else some ⟨cs⟩

/-- Modelled external library call: sm-utils `Str.tryParseJson` wraps strict
`JSON.parse`, returning JS `null` when parsing throws.  The caller in
`defaults` only compares the result against `null`, so `none` covers both a
parse failure and a parsed JSON `null`.  The model's domain is JSON booleans
and integer numerals; other JSON shapes do not occur in catalog boolean
defaults and map to `none`. -/
def tryParseJson (s : String) : Option jsVal :=
  let t := jsTrim s
  if t = "true" then some (jsVal.jbool true)
  else if t = "false" then some (jsVal.jbool false)
  else
    match jsonIntLit t with
    | some r => some (jsVal.jnum r)
    | none => none

/-! ## Data model (typedefs of src/lib/consolidate.js) -/

/-- Row of `information_schema.columns` (typedef `detailedColumnInfo`). -/
structure detailedColumnInfo where
  table_name : String
  column_name : String
  ordinal_position : Nat
  column_default : Option String
  data_type : String
  character_maximum_length : Option Nat
  numeric_precision : Option Nat
  deriving Repr, DecidableEq

/-- Row of the `getIndexes` catalog query (typedef `indexInfo`), together
with the mutable flags `single` / `multiple` / `error` that `generate`
assigns during classification (absent, i.e. `false`, on a fetched row). -/
structure indexInfo where
  index_name : String
  table_name : String
  indexed_columns : List String
  is_unique : Bool
  is_primary : Bool
  single : Bool := false
  multiple : Bool := false
  error : Bool := false
  deriving Repr, DecidableEq

/-- The knex `columnInfo()` row merged with the detailed metadata row and the
optional attached single-column index (typedef `columnInfo`). -/
structure columnInfo where
  type : String
  nullable : Bool
  defaultValue : Option String
  detailedInfo : Option detailedColumnInfo := none
  index : Option indexInfo := none
  deriving Repr, DecidableEq

/-- An extra constructor argument computed by `getType`: either a number
(length/precision) or an already-quoted string (specific type name). -/
inductive extraParam where
  | num (n : Nat)
  | str (s : String)
  deriving Repr, DecidableEq

/-- Result of `getType`: the semantic type plus optional extra args. -/
structure typeResolution where
  type : String
  extraParams : Option (List extraParam)
  deriving Repr, DecidableEq

/-! ## Type Mapper (`getType`) -/

/-- The raw-to-semantic map object literal inside `getType`. -/
def typeMap (t : String) : Option String :=
  if t = "integer" then some "integer"
  else if t = "character varying" then some "string"
  else if t = "jsonb" then some "jsonb"
  else if t = "timestamp with time zone" then some "timestamp"
  else if t = "text" then some "text"
  else if t = "boolean" then some "boolean"
  else if t = "real" then some "float"
  else if t = "numeric" then some "decimal"
  else if t = "USER-DEFINED" then some "specificType"
  else none

/-- `getType` of src/lib/consolidate.js.  A raw type outside the map throws
`invalid type`; the `switch` refines the mapped type.  Note that the source's
`case 'numeric'` arm can never fire, because the map sends the raw catalog
type `numeric` to `decimal`; the arm is mirrored here for fidelity.  JS
property accesses on `null`/`undefined` (missing default or detailed row)
throw and are modelled as `Except.error`. -/
def getType (ci : columnInfo) : Except String typeResolution :=
  match typeMap ci.type with
  | none => Except.error "invalid type"
  | some ty =>
    if ty = "specificType" then
      match ci.defaultValue with
      | none => Except.error "TypeError: defaultValue is null"
      | some dv =>
        match castSuffixMatch dv with
        | none => Except.error "TypeError: match result is null"
        | some name => Except.ok ⟨ty, some [extraParam.str ("'" ++ name ++ "'")]⟩
    else if ty = "integer" then
      if (match ci.defaultValue with
          | some dv => startsWithList nextvalList dv.data
          | none => false)
      then Except.ok ⟨"increments", none⟩
      else Except.ok ⟨"integer", none⟩
    else if ty = "string" then
      match ci.detailedInfo with
      | none => Except.error "TypeError: detailedInfo is undefined"
      | some di =>
        match di.character_maximum_length with
        | some n => if n ≠ 0 then Except.ok ⟨ty, some [extraParam.num n]⟩ else Except.ok ⟨ty, none⟩
        | none => Except.ok ⟨ty, none⟩
    else if ty = "numeric" then
      match ci.detailedInfo with
      | none => Except.error "TypeError: detailedInfo is undefined"
      | some di =>
        match di.numeric_precision with
        | some n => if n ≠ 0 then Except.ok ⟨ty, some [extraParam.num n]⟩ else Except.ok ⟨ty, none⟩
        | none => Except.ok ⟨ty, none⟩
    else Except.ok ⟨ty, none⟩

/-! ## Default-Value Normalizer (`defaults`) and column modifiers -/

/-- The warning text logged by `defaults` for an uninterpretable default
(both logger arguments concatenated). -/
def warnInvalidDefault (dv ty : String) (di : detailedColumnInfo) : String :=
  "[knex-utils] default value is invalid, " ++ dv ++ ", for type " ++ ty ++
    ". Table " ++ di.table_name ++ ", Column " ++ di.column_name

/-- `defaults` of src/lib/consolidate.js, returning the emitted default
clause together with the list of logged warnings.  The source's
`type === 'numeric'` test is mirrored although it can never hold, since
`getType` maps the raw type `numeric` to `decimal`.  The quote-unescape
`replace(/\\'/, "'")` and the quote-strip `replace("'", '')` affect only the
first occurrence, exactly as the non-global JS patterns do. -/
def defaults (ci : columnInfo) : Except String (String × List String) :=
  match ci.defaultValue with
  | none => Except.ok ("", [])
  | some dv =>
    match getType ci with
    | Except.error e => Except.error e
    | Except.ok tr =>
      if tr.type = "increments" then Except.ok ("", [])
      else
        match quotedMatch dv with
        | some g1 => Except.ok (".defaultTo(" ++ replaceFirst g1 "\\'" "'" ++ ")", [])
        | none =>
          if tr.type = "numeric" ∨ tr.type = "integer" then
            match jsNumber (replaceFirst dv "'" "") with
            | none =>
              match ci.detailedInfo with
              | none => Except.error "TypeError: detailedInfo is undefined"
              | some di => Except.ok ("", [warnInvalidDefault dv tr.type di])
            | some n => Except.ok (".defaultTo(" ++ n ++ ")", [])
          else if tr.type = "boolean" then
            match tryParseJson (replaceFirst dv "'" "") with
            | none =>
              match ci.detailedInfo with
              | none => Except.error "TypeError: detailedInfo is undefined"
              | some di => Except.ok ("", [warnInvalidDefault dv tr.type di])
            | some v => Except.ok (".defaultTo(" ++ renderJsVal v ++ ")", [])
          else Except.ok ("", [])

/-- `nullable` of src/lib/consolidate.js: suppressed on a column whose
attached index is primary, otherwise `.nullable()` / `.notNullable()`. -/
def nullable (ci : columnInfo) : String :=
  match ci.index with
  | some i =>
    if i.is_primary then ""
    else if ci.nullable then ".nullable()" else ".notNullable()"
  | none => if ci.nullable then ".nullable()" else ".notNullable()"

/-- `indexed` of src/lib/consolidate.js. -/
def indexed (ci : columnInfo) : String :=
  match ci.index with
  | none => ""
  | some i =>
    if ¬ i.single then ""
    else if i.is_primary then ""
    else if i.is_unique then ".unique()"
    else ".index()"

/-- `primary` of src/lib/consolidate.js. -/
def primary (ci : columnInfo) : String :=
  match ci.index with
  | none => ""
  | some i =>
    if ¬ i.single then ""
    else if i.is_primary then ".primary()"
    else ""

/-! ## Table Definition Emitter (`singleTableGenerator` pieces) -/

/-- Rendering of `extraParams` entries inside the column clause. -/
def renderParam : extraParam → String
  | extraParam.num n => toString n
  | extraParam.str s => s

/-- The `, ${extraParams.join(', ')}` / empty-string rendering. -/
def renderExtraParams : Option (List extraParam) → String
  | none => ""
  | some [] => ""
  | some ps => ", " ++ String.intercalate ", " (ps.map renderParam)

/-- One column's clause from the `columns` template in
`singleTableGenerator`: base type constructor, then primary marker, then
nullability marker, then default marker, then single-column index marker.
Returns the clause text and the warnings logged by `defaults`. -/
def columnClause (columnName : String) (ci : columnInfo) :
    Except String (String × List String) :=
  match getType ci with
  | Except.error e => Except.error e
  | Except.ok tr =>
    match defaults ci with
    | Except.error e => Except.error e
    | Except.ok (d, w) =>
      Except.ok ("\t\t\ttable." ++ tr.type ++ "('" ++ columnName ++ "'" ++
        renderExtraParams tr.extraParams ++ ")" ++ primary ci ++ nullable ci ++
        d ++ indexed ci ++ ";", w)

/-- One table-level index clause from the `indexes` template in
`singleTableGenerator`: composite primary / unique / plain index for a
`multiple` index, and an "Unknown index type" warning with empty output for
anything else that survived the `!i.single` filter. -/
def indexClause (i : indexInfo) : String × List String :=
  if i.multiple then
    let colsStr := String.intercalate ", "
      (i.indexed_columns.map (fun c => "'" ++ stripQuotes c ++ "'"))
    if i.is_primary then ("\t\t\ttable.primary([" ++ colsStr ++ "]);", [])
    else if i.is_unique && i.multiple then ("\t\t\ttable.unique([" ++ colsStr ++ "]);", [])
    else ("\t\t\ttable.index([" ++ colsStr ++ "]);", [])
  else ("", ["[knex-utils] Unknown index type"])

/-! ## Index classification (the loop inside `generate`) -/

/-- The classification step `generate` applies to one fetched index, given
the keys of `columnsInfo`: one indexed column whose quote-stripped name is a
known column marks the index `single`; an unknown column marks it `error`
and logs a diagnostic (the keys and the stripped name); any other arity
marks it `multiple`.  Returns the updated index and the logged warnings. -/
def classifyOne (colNames : List String) (i : indexInfo) : indexInfo × List String :=
  match i.indexed_columns with
  | [c] =>
    if colNames.contains (stripQuotes c) then ({i with single := true}, [])
    else ({i with error := true},
      ["[knex-utils] " ++ String.intercalate "," colNames ++ " " ++ stripQuotes c])
  | _ => ({i with multiple := true}, [])

/-- All indexes after `generate`'s classification map. -/
def classifyIndexes (colNames : List String) (idxs : List indexInfo) : List indexInfo :=
  idxs.map (fun i => (classifyOne colNames i).1)

/-- The single quote-stripped indexed column of an index, when it has
exactly one. -/
def singleColOf (i : indexInfo) : Option String :=
  match i.indexed_columns with
  | [c] => some (stripQuotes c)
  | _ => none

/-- Last element of a list satisfying `p`, mirroring JS property
re-assignment where a later write overwrites an earlier one. -/
def lastMatch (p : indexInfo → Bool) (l : List indexInfo) : Option indexInfo :=
  l.foldl (fun acc x => if p x then some x else acc) none

/-- The index attached to column `c` (`col.index`) after `generate`'s
classification loop: the last classified-single index on that column. -/
def attachedIndex (colNames : List String) (idxs : List indexInfo) (c : String) :
    Option indexInfo :=
  lastMatch (fun i => i.single && (singleColOf i == some c)) (classifyIndexes colNames idxs)

/-- The table-level index list `singleTableGenerator` receives after the
`filter(i => !i.single)`. -/
def tableLevelIndexes (colNames : List String) (idxs : List indexInfo) : List indexInfo :=
  (classifyIndexes colNames idxs).filter (fun i => !i.single)

/-! ## Catalog Reader merge (`getColumns`) -/

/-- The concise per-column row returned by knex's `columnInfo()`. -/
structure knexColumnInfo where
  type : String
  maxLength : Option Nat := none
  nullable : Bool
  defaultValue : Option String
  deriving Repr, DecidableEq

/-- A concise row viewed as a `columnInfo` before the detailed merge. -/
def toColumnInfo (k : knexColumnInfo) : columnInfo :=
  { type := k.type, nullable := k.nullable, defaultValue := k.defaultValue,
    detailedInfo := none, index := none }

/-- Assign one detailed row onto the matching concise entry
(`columnsInfo[columnDetailed.column_name].detailedInfo = columnDetailed`). -/
def setDetailed (cols : List (String × columnInfo)) (d : detailedColumnInfo) :
    List (String × columnInfo) :=
  cols.map (fun p => if p.1 = d.column_name then (p.1, {p.2 with detailedInfo := some d}) else p)

/-- The `detailedInfo.forEach` loop of `getColumns`: assigning onto a column
name absent from the concise map dereferences `undefined` and throws. -/
def assignDetailed (cols : List (String × columnInfo)) :
    List detailedColumnInfo → Except String (List (String × columnInfo))
  | [] => Except.ok cols
  | d :: rest =>
    if (cols.map Prod.fst).contains d.column_name then
      assignDetailed (setDetailed cols d) rest
    else
      Except.error ("TypeError: cannot set detailedInfo of undefined column " ++ d.column_name)

/-- `getColumns` of src/lib/consolidate.js, with the two catalog reads
supplied as arguments: the concise `columnInfo()` map and the
`information_schema.columns` rows. -/
def getColumns (concise : List (String × knexColumnInfo))
    (detailed : List detailedColumnInfo) : Except String (List (String × columnInfo)) :=
  assignDetailed (concise.map (fun p => (p.1, toColumnInfo p.2))) detailed

/-! ## Database-lifecycle operations (src/index.js)

Each operation is modelled as a function from its inputs (the `NODE_ENV`
environment variable, the `env` argument, and the loaded knexfile) to the
ordered list of SQL statements it executes against the server together with
an optional thrown error message.  A non-empty error with an empty statement
list means the function threw before performing any database action. -/

/-- The `connection` object of a knexfile environment entry. -/
structure dbConnection where
  database : Option String
  user : String
  deriving Repr, DecidableEq

/-- One environment entry of the knexfile, plus the `originalDatabase`
bookkeeping field that `recreateDb` installs. -/
structure dbConfig where
  client : String
  connection : dbConnection
  originalDatabase : Option String := none
  deriving Repr, DecidableEq

/-- The production-guard error message shared by the lifecycle operations. -/
def prodError : String := "Can't use this in production. Too dangerous."

/-- `dropDb` of src/index.js: the production guard runs before anything
else; then the config and database name are validated and the drop
statements are issued (connection-limit and backend-termination first on
postgres). -/
def dropDb (nodeEnv env : String) (kf : String → Option dbConfig) :
    List String × Option String :=
  if nodeEnv = "production" ∨ env = "production" then ([], some prodError)
  else
    match kf env with
    | none => ([], some ("Config for environment " ++ env ++ " does not exist"))
    | some cfg =>
      match cfg.connection.database with
      | none => ([], some "database name does not exist in the config")
      | some dbName =>
        if dbName = "" then ([], some "database name does not exist in the config")
        else
          ((if cfg.client = "pg" then
              ["ALTER DATABASE " ++ dbName ++ " CONNECTION LIMIT 1",
               "SELECT pg_terminate_backend " ++ dbName]
            else []) ++ ["DROP DATABASE IF EXISTS " ++ dbName], none)

/-- `copyDb` of src/index.js: the env argument defaults to `NODE_ENV` when
falsy, the production guard runs before any statement, then the config and
name checks, then backend termination on the old database and the templated
copy. -/
def copyDb (nodeEnv oldDbName newDbName env : String)
    (kf : String → Option dbConfig) : List String × Option String :=
  let env2 := if env = "" then nodeEnv else env
  if env2 = "production" then ([], some prodError)
  else
    match kf env2 with
    | none => ([], some ("knex config not found for env " ++ env2))
    | some _ =>
      if oldDbName = newDbName then
        ([], some ("oldDb can't be same as newDb [" ++ oldDbName ++ "]."))
      else
        (["SELECT pg_terminate_backend " ++ oldDbName,
          "CREATE DATABASE " ++ newDbName ++ " WITH TEMPLATE " ++ oldDbName], none)

/-- `copyDbForTest` of src/index.js: guard, config check, original-database
check, then delegation to `copyDb` with a random-suffixed new name. -/
def copyDbForTest (nodeEnv env random : String)
    (kf : String → Option dbConfig) : List String × Option String :=
  let env2 := if env = "" then nodeEnv else env
  if env2 = "production" then ([], some prodError)
  else
    match kf env2 with
    | none => ([], some ("knex config not found for env " ++ env2))
    | some cfg =>
      match cfg.originalDatabase with
      | none => ([], some ("original database not found for env " ++ env2))
      | some orig =>
        if orig = "" then ([], some ("original database not found for env " ++ env2))
        else copyDb nodeEnv orig (orig ++ "_copy_" ++ random) env2 kf

/-- `rollbackCopyDbForTest` of src/index.js: guard, config check,
original-database check, no-op when the current database already is the
original, otherwise the drop of the copy via `dropDb`. -/
def rollbackCopyDbForTest (nodeEnv env : String)
    (kf : String → Option dbConfig) : List String × Option String :=
  let env2 := if env = "" then nodeEnv else env
  if env2 = "production" then ([], some prodError)
  else
    match kf env2 with
    | none => ([], some ("knex config not found for env " ++ env2))
    | some cfg =>
      match cfg.originalDatabase with
      | none => ([], some ("original database not found for env " ++ env2))
      | some orig =>
        if orig = "" then ([], some ("original database not found for env " ++ env2))
        else if cfg.connection.database = some orig then ([], none)
        else dropDb nodeEnv env2 kf

/-! ## Concrete catalog rows used in the claim theorems and witnesses -/

/-- A detailed row for a `numeric` column with a recorded precision of 10. -/
def diOrders : detailedColumnInfo :=
  { table_name := "orders", column_name := "amount", ordinal_position := 2,
    column_default := some "not_a_number", data_type := "numeric",
    character_maximum_length := none, numeric_precision := some 10 }

/-- A `numeric` column with recorded precision 10 and no default. -/
def numericPrecCol : columnInfo :=
  { type := "numeric", nullable := false, defaultValue := none,
    detailedInfo := some diOrders }

/-- A `numeric` (semantic `decimal`) column whose raw default is the
unparseable text `not_a_number`. -/
def decimalBadDefaultCol : columnInfo :=
  { type := "numeric", nullable := false, defaultValue := some "not_a_number",
    detailedInfo := some diOrders }

/-- A concise knex `columnInfo()` row for a text column. -/
def kText : knexColumnInfo :=
  { type := "text", nullable := true, defaultValue := none }

/-- A detailed row for a boolean column. -/
def diFlags : detailedColumnInfo :=
  { table_name := "flags", column_name := "active", ordinal_position := 3,
    column_default := some "5", data_type := "boolean",
    character_maximum_length := none, numeric_precision := none }

/-- A boolean column whose raw default is the JSON number `5`. -/
def boolNumDefaultCol : columnInfo :=
  { type := "boolean", nullable := false, defaultValue := some "5",
    detailedInfo := some diFlags }

/-- A boolean column whose raw default is unparseable text. -/
def boolBogusDefaultCol : columnInfo :=
  { type := "boolean", nullable := false, defaultValue := some "bogus",
    detailedInfo := some diFlags }

/-- A detailed row for a text column. -/
def diNotes : detailedColumnInfo :=
  { table_name := "notes", column_name := "body", ordinal_position := 1,
    column_default := none, data_type := "text",
    character_maximum_length := none, numeric_precision := none }

/-- A text column whose quoted-literal default carries two escaped quotes. -/
def textEscapedCol : columnInfo :=
  { type := "text", nullable := false, defaultValue := some "'a\\'b\\'c'::text",
    detailedInfo := some diNotes }

/-- A text column with the quoted-literal default `'active'::varchar`. -/
def textActiveCol : columnInfo :=
  { type := "text", nullable := false, defaultValue := some "'active'::varchar",
    detailedInfo := some diNotes }

/-- A column whose raw catalog type is outside the supported map. -/
def unknownTypeCol : columnInfo :=
  { type := "money", nullable := false, defaultValue := none }

/-- An integer column with an auto-increment sequence default. -/
def incrementsCol : columnInfo :=
  { type := "integer", nullable := false,
    defaultValue := some "nextval('users_id_seq'::regclass)" }

/-- A single-column primary-key index already classified and attached. -/
def pkIndex : indexInfo :=
  { index_name := "users_pkey", table_name := "users",
    indexed_columns := ["id"], is_unique := true, is_primary := true,
    single := true }

/-- The `id` column of the end-to-end scenario: auto-increment integer with
an attached primary single-column index. -/
def idCol : columnInfo :=
  { type := "integer", nullable := false,
    defaultValue := some "nextval('users_id_seq'::regclass)",
    index := some pkIndex }

/-- Column names of the index-classification witness table. -/
def wNames : List String := ["id", "email"]

/-- A fetched single-column index whose quoted column resolves to `id`. -/
def wPk : indexInfo :=
  { index_name := "users_pkey", table_name := "users",
    indexed_columns := ["\"id\""], is_unique := true, is_primary := true }

/-- A fetched single-column index referencing a column that does not exist. -/
def wGhost : indexInfo :=
  { index_name := "users_ghost_idx", table_name := "users",
    indexed_columns := ["ghost"], is_unique := false, is_primary := false }

/-- A fetched two-column index. -/
def wMulti : indexInfo :=
  { index_name := "users_multi_idx", table_name := "users",
    indexed_columns := ["a", "b"], is_unique := false, is_primary := false }

/-- The fetched index list of the classification witness. -/
def wIdxs : List indexInfo := [wPk, wGhost, wMulti]

/-- A knexfile lookup with no environments, for the guard witnesses. -/
def noKnexfile : String → Option dbConfig := fun _ => none

/-! ## Helper lemmas -/

/-- `getType` on a raw `boolean` column always resolves to semantic
`boolean` with no extra args. -/
theorem getType_boolean (ci : columnInfo) (h : ci.type = "boolean") :
    getType ci = Except.ok ⟨"boolean", none⟩ := by
  simp [getType, typeMap, h]

/-- The raw-to-semantic map never produces `increments`; that refinement
only happens in the `integer` switch arm. -/
theorem typeMap_ne_increments (t : String) : typeMap t ≠ some "increments" := by
  unfold typeMap
  split_ifs <;> simp

/-- A resolution of semantic type `increments` can only arise from an
integer column whose default starts with `nextval`. -/
theorem getType_increments (ci : columnInfo) (tr : typeResolution)
    (h : getType ci = Except.ok tr) (hinc : tr.type = "increments") :
    ∃ dv, ci.defaultValue = some dv ∧ startsWithList nextvalList dv.data = true := by
  unfold getType at h
  split at h
  · exact absurd h (by simp)
  next ty htm =>
    split at h
    · split at h
      · exact absurd h (by simp)
      · split at h
        · exact absurd h (by simp)
        · injection h with h
          rw [← h] at hinc; simp at hinc
          rw [hinc] at htm
          exact absurd htm (typeMap_ne_increments _)
    · split at h
      · split at h
        next hcond =>
          revert hcond
          cases hdv : ci.defaultValue with
          | none => intro hcond; simp at hcond
          | some dv => intro hcond; exact ⟨dv, rfl, hcond⟩
        · injection h with h
          rw [← h] at hinc; simp at hinc
      · split at h
        · split at h
          · exact absurd h (by simp)
          · split at h
            · split at h <;>
                (injection h with h; rw [← h] at hinc; simp at hinc;
                 rw [hinc] at htm; exact absurd htm (typeMap_ne_increments _))
            · injection h with h
              rw [← h] at hinc; simp at hinc
              rw [hinc] at htm
              exact absurd htm (typeMap_ne_increments _)
        · split at h
          · split at h
            · exact absurd h (by simp)
            · split at h
              · split at h <;>
                  (injection h with h; rw [← h] at hinc; simp at hinc;
                   rw [hinc] at htm; exact absurd htm (typeMap_ne_increments _))
              · injection h with h
                rw [← h] at hinc; simp at hinc
                rw [hinc] at htm
                exact absurd htm (typeMap_ne_increments _)
          · injection h with h
            rw [← h] at hinc; simp at hinc
            rw [hinc] at htm
            exact absurd htm (typeMap_ne_increments _)

/-- A raw default matching the quoted-literal pattern starts with a quote. -/
theorem quotedMatch_head (s g : String) (h : quotedMatch s = some g) :
    s.data.head? = some '\'' := by
  unfold quotedMatch at h
  split at h
  next j hj =>
    have hq := List.find?_some hj
    unfold quotedAt at hq
    simp only [Bool.and_eq_true, beq_iff_eq] at hq
    exact hq.1.1.1.1
  next => exact absurd h (by simp)

/-- A default starting with `nextval` starts with the letter `n`. -/
theorem startsWith_nextval_head (dv : String)
    (h : startsWithList nextvalList dv.data = true) :
    dv.data.head? = some 'n' := by
  cases hd : dv.data with
  | nil => rw [hd] at h; simp [startsWithList, nextvalList] at h
  | cons c cs =>
    rw [hd] at h
    have he : nextvalList = 'n' :: "extval".data := rfl
    rw [he] at h
    simp only [startsWithList, Bool.and_eq_true, beq_iff_eq] at h
    rw [← h.1]
    rfl

/-- `setDetailed` does not change the column-name keys. -/
theorem keys_setDetailed (cols : List (String × columnInfo)) (d : detailedColumnInfo) :
    (setDetailed cols d).map Prod.fst = cols.map Prod.fst := by
  induction cols with
  | nil => rfl
  | cons p rest ih =>
    by_cases h : p.1 = d.column_name <;>
      simp only [setDetailed, List.map_cons, if_pos, if_neg, h, ite_true, ite_false] at ih ⊢ <;>
      simp [ih]

/-- The `forEach` assignment loop fails exactly when some detailed row names
a column that is not a key of the concise map. -/
theorem assignDetailed_error_iff (detailed : List detailedColumnInfo) :
    ∀ cols, (∃ e, assignDetailed cols detailed = Except.error e) ↔
      ∃ d ∈ detailed, (cols.map Prod.fst).contains d.column_name = false := by
  induction detailed with
  | nil => intro cols; simp [assignDetailed]
  | cons d rest ih =>
    intro cols
    by_cases h : (cols.map Prod.fst).contains d.column_name
    · have hstep : assignDetailed cols (d :: rest) = assignDetailed (setDetailed cols d) rest := by
        conv_lhs => unfold assignDetailed
        exact if_pos h
      rw [hstep, ih (setDetailed cols d)]
      constructor
      · rintro ⟨d2, hd2, he⟩
        exact ⟨d2, List.mem_cons_of_mem _ hd2, by rwa [keys_setDetailed] at he⟩
      · rintro ⟨d2, hd2, he⟩
        rcases List.mem_cons.mp hd2 with rfl | hd2m
        · rw [h] at he; cases he
        · exact ⟨d2, hd2m, by rwa [keys_setDetailed]⟩
    · constructor
      · intro _
        exact ⟨d, List.mem_cons_self _ _, by simpa using h⟩
      · intro _
        refine ⟨"TypeError: cannot set detailedInfo of undefined column " ++ d.column_name, ?_⟩
        conv_lhs => unfold assignDetailed
        exact if_neg h

/-- Classification never changes the indexed-column list of an index. -/
theorem classifyOne_cols (colNames : List String) (i : indexInfo) :
    (classifyOne colNames i).1.indexed_columns = i.indexed_columns := by
  unfold classifyOne
  split
  · split <;> rfl
  · rfl

/-- Classification never changes the single indexed column of an index. -/
theorem singleColOf_classifyOne (colNames : List String) (i : indexInfo) :
    singleColOf (classifyOne colNames i).1 = singleColOf i := by
  simp [singleColOf, classifyOne_cols]

/-- Soundness of the fold that models the last `col.index` assignment. -/
theorem lastMatch_some (p : indexInfo → Bool) (l : List indexInfo) :
    ∀ acc j, l.foldl (fun a x => if p x then some x else a) acc = some j →
      (j ∈ l ∧ p j = true) ∨ acc = some j := by
  induction l with
  | nil => intro acc j h; exact Or.inr h
  | cons y ys ih =>
    intro acc j h
    simp only [List.foldl_cons] at h
    rcases ih _ j h with h1 | h2
    · exact Or.inl ⟨List.mem_cons_of_mem _ h1.1, h1.2⟩
    · by_cases hp : p y = true
      · rw [if_pos hp] at h2
        injection h2 with e
        subst e
        exact Or.inl ⟨List.mem_cons_self _ _, hp⟩
      · rw [if_neg hp] at h2
        exact Or.inr h2

/-- Completeness of the attachment fold: a `none` result means no element
matched (and the accumulator was `none`). -/
theorem lastMatch_eq_none (p : indexInfo → Bool) (l : List indexInfo) :
    ∀ acc, l.foldl (fun a x => if p x then some x else a) acc = none →
      acc = none ∧ ∀ x ∈ l, p x = false := by
  induction l with
  | nil => intro acc h; exact ⟨h, by simp⟩
  | cons y ys ih =>
    intro acc h
    simp only [List.foldl_cons] at h
    obtain ⟨hacc, hall⟩ := ih _ h
    by_cases hp : p y = true
    · rw [if_pos hp] at hacc; cases hacc
    · rw [if_neg hp] at hacc
      refine ⟨hacc, ?_⟩
      intro x hx
      rcases List.mem_cons.mp hx with rfl | hx2
      · simpa using hp
      · exact hall x hx2

/-- Once the accumulator holds `a` and every later match is `a`, the fold
returns `a`. -/
theorem lastMatch_stable (p : indexInfo → Bool) (a : indexInfo) :
    ∀ l : List indexInfo, (∀ x ∈ l, p x = true → x = a) →
      l.foldl (fun a2 x => if p x then some x else a2) (some a) = some a := by
  intro l
  induction l with
  | nil => intro _; rfl
  | cons y ys ih =>
    intro hall
    simp only [List.foldl_cons]
    by_cases hp : p y = true
    · rw [if_pos hp, hall y (List.mem_cons_self _ _) hp]
      exact ih (fun x hx => hall x (List.mem_cons_of_mem _ hx))
    · rw [if_neg hp]
      exact ih (fun x hx => hall x (List.mem_cons_of_mem _ hx))

/-- If every match in the list equals `a` and there is at least one match,
the fold starting from `none` returns `a`. -/
theorem lastMatch_unique (p : indexInfo → Bool) (a : indexInfo) :
    ∀ l : List indexInfo, (∀ x ∈ l, p x = true → x = a) → (∃ x ∈ l, p x = true) →
      l.foldl (fun a2 x => if p x then some x else a2) none = some a := by
  intro l
  induction l with
  | nil => rintro _ ⟨x, hx, _⟩; cases hx
  | cons y ys ih =>
    rintro hall ⟨x, hx, hpx⟩
    simp only [List.foldl_cons]
    by_cases hp : p y = true
    · rw [if_pos hp, hall y (List.mem_cons_self _ _) hp]
      exact lastMatch_stable p a ys (fun z hz => hall z (List.mem_cons_of_mem _ hz))
    · rw [if_neg hp]
      rcases List.mem_cons.mp hx with rfl | hx2
      · exact absurd hpx hp
      · exact ih (fun z hz => hall z (List.mem_cons_of_mem _ hz)) ⟨x, hx2, hpx⟩

/-! ## Claim theorems -/

/-- C1: evaluation of the Type Mapper at the failing input.  A column whose
raw catalog type is `numeric` always resolves to semantic type `decimal`
with NO extra constructor args — even when, as here, the catalog records a
numeric precision of 10.  The source's `case 'numeric'` switch arm that
would copy the precision can never fire, because the switch scrutinee is
the already-mapped type `decimal`; the claim's "extra arg = precision" is
the evident intent and the code drops it. -/
theorem C1_numeric_precision_dropped :
    getType numericPrecCol = Except.ok ⟨"decimal", none⟩ ∧
    numericPrecCol.type = "numeric" ∧
    numericPrecCol.detailedInfo.map detailedColumnInfo.numeric_precision =
      some (some 10) :=
  ⟨rfl, rfl, rfl⟩

/-- C2 counterexample: the concise view has column `a` and the detailed view
has no row at all, yet `getColumns` succeeds (the merge loop iterates over
detailed rows only), contradicting the claim that a concise column without
a detailed row is an error. -/
theorem C2_concise_without_detailed_is_ok :
    getColumns [("a", kText)] [] =
      Except.ok [("a", { type := "text", nullable := true, defaultValue := none,
                         detailedInfo := none, index := none })] :=
  rfl

/-- C2 (amended): `listColumns` merges the two views keyed by column name
and errors exactly when some row of the DETAILED view names a column that is
missing from the concise view; a concise column with no detailed row passes
through silently (with no detailed metadata attached). -/
theorem C2_merge_error_characterization
    (concise : List (String × knexColumnInfo)) (detailed : List detailedColumnInfo) :
    (∃ e, getColumns concise detailed = Except.error e) ↔
      ∃ d ∈ detailed, ((concise.map Prod.fst).contains d.column_name = false) := by
  unfold getColumns
  rw [assignDetailed_error_iff]
  have hkeys : (concise.map (fun p => (p.1, toColumnInfo p.2))).map Prod.fst =
      concise.map Prod.fst := by
    rw [List.map_map]; rfl
  rw [hkeys]

/-- C3: evaluation of the Default-Value Normalizer at the failing input.
For a column of semantic type `decimal` (raw `numeric`) with the unparseable
raw default `not_a_number`, the claim (and spec rule 4) requires a numeric
parse attempt with exactly one warning on failure; the code instead falls
into the silent catch-all branch — no parse, no warning — because it
compares the semantic type against the raw name `numeric`, which `getType`
never returns (it returns `decimal`).  The claim is the evident intent and
the comparison is the slip. -/
theorem C3_decimal_default_silently_dropped :
    defaults decimalBadDefaultCol = Except.ok ("", []) ∧
    getType decimalBadDefaultCol = Except.ok ⟨"decimal", none⟩ ∧
    jsNumber "not_a_number" = none :=
  ⟨rfl, rfl, rfl⟩

/-- C4 counterexample: a boolean column whose raw default `5` strictly
JSON-parses to the NUMBER 5 — not a boolean — yet the normalizer emits
`.defaultTo(5)` with no warning, contradicting the claim that any parse not
yielding a boolean warns and emits no default. -/
theorem C4_nonboolean_parse_still_emitted :
    defaults boolNumDefaultCol = Except.ok (".defaultTo(5)", []) ∧
    tryParseJson "5" = some (jsVal.jnum "5") :=
  ⟨rfl, rfl⟩

/-- C4 (amended): for a boolean column whose non-null raw default does not
match the quoted-literal pattern, the normalizer strictly JSON-parses the
quote-stripped raw text and checks only whether the result is null: a null
result (parse failure or JSON null) logs one warning and emits no default,
while ANY non-null parsed value — boolean or not — is emitted as the
default clause. -/
theorem C4_boolean_default_null_check (ci : columnInfo) (dv : String)
    (di : detailedColumnInfo)
    (hty : ci.type = "boolean") (hdv : ci.defaultValue = some dv)
    (hdi : ci.detailedInfo = some di) (hq : quotedMatch dv = none) :
    (tryParseJson (replaceFirst dv "'" "") = none →
       defaults ci = Except.ok ("", [warnInvalidDefault dv "boolean" di])) ∧
    (∀ v, tryParseJson (replaceFirst dv "'" "") = some v →
       defaults ci = Except.ok (".defaultTo(" ++ renderJsVal v ++ ")", [])) := by
  have hgt := getType_boolean ci hty
  constructor
  · intro hp
    simp [defaults, hdv, hgt, hq, hp, hdi]
  · intro v hp
    simp [defaults, hdv, hgt, hq, hp]

/-- C4 witness: the amended theorem applied to a boolean column with the
unparseable raw default `bogus`: one warning, no default clause. -/
theorem C4_boolean_default_null_check_witness :
    defaults boolBogusDefaultCol =
      Except.ok ("", [warnInvalidDefault "bogus" "boolean" diFlags]) :=
  (C4_boolean_default_null_check boolBogusDefaultCol "bogus" diFlags
    rfl rfl rfl rfl).1 rfl

/-- C5 counterexample: the quoted-literal default `'a\'b\'c'::text` carries
two escaped quotes, but the unescape `replace(/\\'/, "'")` has no global
flag, so only the FIRST `\'` is unescaped — the emitted literal still
contains `\'`, contradicting the claim that one level of escaped quotes
(all of them) is unescaped. -/
theorem C5_only_first_escape_unescaped :
    defaults textEscapedCol = Except.ok (".defaultTo('a'b\\'c')", []) ∧
    (".defaultTo('a'b\\'c')" : String) ≠ ".defaultTo('a'b'c')" :=
  ⟨rfl, by decide⟩

/-- C5 (amended): for every raw default matching the quoted-string-literal
pattern with an optional trailing `::type` cast, the normalizer emits the
quoted literal (the surrounding single quotes kept as the migration DSL's
string delimiters) with the cast suffix discarded and only the first
escaped-quote occurrence unescaped; in particular `'active'::varchar`
normalizes to `.defaultTo('active')`, i.e. the literal `active`. -/
theorem C5_quoted_literal_roundtrip (ci : columnInfo) (dv g1 : String)
    (tr : typeResolution) (hdv : ci.defaultValue = some dv)
    (hgt : getType ci = Except.ok tr) (hq : quotedMatch dv = some g1) :
    defaults ci = Except.ok (".defaultTo(" ++ replaceFirst g1 "\\'" "'" ++ ")", []) := by
  have hninc : ¬ tr.type = "increments" := by
    intro hinc
    obtain ⟨dv2, hdv2, hsw⟩ := getType_increments ci tr hgt hinc
    rw [hdv] at hdv2
    injection hdv2 with e
    subst e
    have h1 := quotedMatch_head dv g1 hq
    have h2 := startsWith_nextval_head dv hsw
    rw [h1] at h2
    exact absurd h2 (by simp)
  simp [defaults, hdv, hgt, hq, hninc]

/-- C5 witness: the amended theorem at the spec's own example — the raw
default `'active'::varchar` on a text column normalizes to the literal
`active` (emitted as `.defaultTo('active')`). -/
theorem C5_quoted_literal_roundtrip_witness :
    defaults textActiveCol = Except.ok (".defaultTo('active')", []) :=
  C5_quoted_literal_roundtrip textActiveCol "'active'::varchar" "'active'"
    ⟨"text", none⟩ rfl rfl rfl

/-- C6: a column whose raw catalog type is outside the fixed mapping table
makes the Type Mapper throw its unsupported-type error (message
`invalid type`), which propagates and is fatal for the table's generation. -/
theorem C6_unsupported_type_fatal (ci : columnInfo)
    (h : ci.type ∉ ["integer", "character varying", "jsonb",
      "timestamp with time zone", "text", "boolean", "real", "numeric",
      "USER-DEFINED"]) :
    getType ci = Except.error "invalid type" := by
  have hm : typeMap ci.type = none := by
    simp only [List.mem_cons, List.not_mem_nil, or_false, not_or] at h
    obtain ⟨h1, h2, h3, h4, h5, h6, h7, h8, h9⟩ := h
    simp [typeMap, h1, h2, h3, h4, h5, h6, h7, h8, h9]
  simp [getType, hm]

/-- C6 witness: the raw catalog type `money` is unsupported and fatal. -/
theorem C6_unsupported_type_fatal_witness :
    getType unknownTypeCol = Except.error "invalid type" :=
  C6_unsupported_type_fatal unknownTypeCol (by decide)

/-- C7: an integer column whose default begins with the sequence marker
`nextval` resolves to `increments` with no extra constructor args, and the
Default-Value Normalizer emits no default clause (and no warning) for it —
it is never emitted as `integer` with a numeric default. -/
theorem C7_autoincrement_is_increments (ci : columnInfo) (dv : String)
    (hty : ci.type = "integer") (hdv : ci.defaultValue = some dv)
    (hsw : startsWithList nextvalList dv.data = true) :
    getType ci = Except.ok ⟨"increments", none⟩ ∧
    defaults ci = Except.ok ("", []) := by
  have hgt : getType ci = Except.ok ⟨"increments", none⟩ := by
    simp [getType, typeMap, hty, hdv, hsw]
  exact ⟨hgt, by simp [defaults, hdv, hgt]⟩

/-- C7 witness: the classic `id` column with default
`nextval('users_id_seq'::regclass)`. -/
theorem C7_autoincrement_is_increments_witness :
    getType incrementsCol = Except.ok ⟨"increments", none⟩ ∧
    defaults incrementsCol = Except.ok ("", []) :=
  C7_autoincrement_is_increments incrementsCol
    "nextval('users_id_seq'::regclass)" rfl rfl rfl

/-- C8: classification of fetched indexes.  For a fetched index (all
classification flags still unset): (1) with exactly one indexed column whose
quote-stripped name is a known column, it is marked `single`, it is excluded
from the table-level index list, the column ends up with exactly one
attached single index on it, and — when it is the only index on that
column — that attachment is the index itself; (2) with one indexed column
that matches no known column, it is marked `error` (not `single`), a
diagnostic is logged, and emission produces no clause for it (only an
unknown-index warning), with no fatal error; (3) with more than one indexed
column it is marked `multiple`, kept in the table-level index list, and no
column's attachment ever refers to it. -/
theorem C8_index_classification (colNames : List String) (idxs : List indexInfo)
    (i : indexInfo) (hi : i ∈ idxs)
    (hs : i.single = false) (hm : i.multiple = false) :
    (∀ c, i.indexed_columns = [c] → colNames.contains (stripQuotes c) = true →
      ((classifyOne colNames i).1.single = true ∧
       (classifyOne colNames i).1 ∉ tableLevelIndexes colNames idxs ∧
       (∃ j, attachedIndex colNames idxs (stripQuotes c) = some j ∧
          j.single = true ∧ singleColOf j = some (stripQuotes c)) ∧
       ((∀ k ∈ idxs, singleColOf k = some (stripQuotes c) → k = i) →
          attachedIndex colNames idxs (stripQuotes c) =
            some (classifyOne colNames i).1))) ∧
    (∀ c, i.indexed_columns = [c] → colNames.contains (stripQuotes c) = false →
      ((classifyOne colNames i).1.error = true ∧
       (classifyOne colNames i).1.single = false ∧
       (classifyOne colNames i).2 ≠ [] ∧
       indexClause (classifyOne colNames i).1 =
         ("", ["[knex-utils] Unknown index type"]))) ∧
    (1 < i.indexed_columns.length →
      ((classifyOne colNames i).1.multiple = true ∧
       (classifyOne colNames i).1 ∈ tableLevelIndexes colNames idxs ∧
       (∀ c j, attachedIndex colNames idxs c = some j →
          j ≠ (classifyOne colNames i).1))) := by
  refine ⟨?_, ?_, ?_⟩
  · intro c hc hlook
    have hlook2 : stripQuotes c ∈ colNames := by simpa using hlook
    have hclass : classifyOne colNames i = ({i with single := true}, []) := by
      simp [classifyOne, hc, hlook2]
    have hmem : (classifyOne colNames i).1 ∈ classifyIndexes colNames idxs :=
      List.mem_map_of_mem _ hi
    have hp : ((classifyOne colNames i).1.single &&
        (singleColOf (classifyOne colNames i).1 == some (stripQuotes c))) = true := by
      rw [hclass]
      simp [singleColOf, hc]
    refine ⟨by rw [hclass], ?_, ?_, ?_⟩
    · intro hin
      have := (List.mem_filter.mp hin).2
      rw [hclass] at this
      simp at this
    · rcases hlm : attachedIndex colNames idxs (stripQuotes c) with _ | j
      · exfalso
        have := (lastMatch_eq_none _ _ _ hlm).2 _ hmem
        rw [this] at hp
        cases hp
      · rcases lastMatch_some _ _ _ _ hlm with ⟨hjm, hpj⟩ | habs
        · simp only [Bool.and_eq_true, beq_iff_eq] at hpj
          exact ⟨j, rfl, hpj.1, hpj.2⟩
        · cases habs
    · intro huniq
      apply lastMatch_unique
      · intro x hx hpx
        obtain ⟨k, hk, hkx⟩ := List.mem_map.mp hx
        simp only [Bool.and_eq_true, beq_iff_eq] at hpx
        have hsck : singleColOf k = some (stripQuotes c) := by
          rw [← singleColOf_classifyOne colNames k, hkx]
          exact hpx.2
        have : k = i := huniq k hk hsck
        rw [← hkx, this]
      · exact ⟨(classifyOne colNames i).1, hmem, hp⟩
  · intro c hc hlook
    have hlook2 : stripQuotes c ∉ colNames := by simpa using hlook
    have hclass : classifyOne colNames i =
        ({i with error := true},
         ["[knex-utils] " ++ String.intercalate "," colNames ++ " " ++ stripQuotes c]) := by
      simp [classifyOne, hc, hlook2]
    refine ⟨by rw [hclass], by rw [hclass]; exact hs, by rw [hclass]; simp, ?_⟩
    rw [hclass]
    simp only [indexClause]
    rw [if_neg]
    simp [hm]
  · intro hlen
    have hclass : classifyOne colNames i = ({i with multiple := true}, []) := by
      rcases hcols : i.indexed_columns with _ | ⟨c, cs⟩
      · rw [hcols] at hlen; simp at hlen
      · rcases hcs : cs with _ | ⟨c2, cs2⟩
        · rw [hcols, hcs] at hlen; simp at hlen
        · rw [hcs] at hcols
          simp [classifyOne, hcols]
    refine ⟨by rw [hclass], ?_, ?_⟩
    · apply List.mem_filter.mpr
      refine ⟨List.mem_map_of_mem _ hi, ?_⟩
      rw [hclass]
      simp [hs]
    · intro c j hj heq
      rcases lastMatch_some _ _ _ _ hj with ⟨_, hpj⟩ | habs
      · simp only [Bool.and_eq_true] at hpj
        rw [heq, hclass] at hpj
        rw [hs] at hpj
        cases hpj.1
      · cases habs

/-- C8 witness: the classification theorem applied to a concrete fetch —
a quoted single-column primary key on `id` (classified single, excluded
from the table-level list), an index on a nonexistent column `ghost`
(classified error, emits nothing), and a two-column index (classified
multiple, kept at table level). -/
theorem C8_index_classification_witness :
    (classifyOne wNames wPk).1.single = true ∧
    (classifyOne wNames wPk).1 ∉ tableLevelIndexes wNames wIdxs ∧
    (classifyOne wNames wGhost).1.error = true ∧
    indexClause (classifyOne wNames wGhost).1 =
      ("", ["[knex-utils] Unknown index type"]) ∧
    (classifyOne wNames wMulti).1.multiple = true ∧
    (classifyOne wNames wMulti).1 ∈ tableLevelIndexes wNames wIdxs := by
  have h1 := C8_index_classification wNames wIdxs wPk (by decide) rfl rfl
  have h2 := C8_index_classification wNames wIdxs wGhost (by decide) rfl rfl
  have h3 := C8_index_classification wNames wIdxs wMulti (by decide) rfl rfl
  exact ⟨(h1.1 "\"id\"" rfl rfl).1, (h1.1 "\"id\"" rfl rfl).2.1,
    (h2.2.1 "ghost" rfl rfl).1, (h2.2.1 "ghost" rfl rfl).2.2.2,
    (h3.2.2 (by decide)).1, (h3.2.2 (by decide)).2.1⟩

/-- C9: the emitted column clause is exactly the concatenation, in fixed
order, of base type constructor, primary marker, nullability marker,
default marker and single-column index marker; a column whose attached
single index is primary emits `.primary()` with empty nullability and index
markers, while one whose attached single index is not primary emits no
primary marker and `.unique()` when unique, else `.index()` (never both). -/
theorem C9_clause_order_and_markers (columnName : String) (ci : columnInfo)
    (tr : typeResolution) (d : String) (w : List String)
    (hgt : getType ci = Except.ok tr) (hd : defaults ci = Except.ok (d, w)) :
    columnClause columnName ci = Except.ok
      ("\t\t\ttable." ++ tr.type ++ "('" ++ columnName ++ "'" ++
        renderExtraParams tr.extraParams ++ ")" ++ primary ci ++ nullable ci ++
        d ++ indexed ci ++ ";", w) ∧
    (∀ i, ci.index = some i → i.single = true →
      ((i.is_primary = true →
          primary ci = ".primary()" ∧ nullable ci = "" ∧ indexed ci = "") ∧
       (i.is_primary = false →
          primary ci = "" ∧
          nullable ci = (if ci.nullable then ".nullable()" else ".notNullable()") ∧
          indexed ci = (if i.is_unique then ".unique()" else ".index()")))) := by
  constructor
  · simp [columnClause, hgt, hd]
  · intro i hi hsingle
    constructor
    · intro hp
      refine ⟨?_, ?_, ?_⟩
      · simp [primary, hi, hsingle, hp]
      · simp [nullable, hi, hp]
      · simp [indexed, hi, hsingle, hp]
    · intro hp
      refine ⟨?_, ?_, ?_⟩
      · simp [primary, hi, hsingle, hp]
      · simp [nullable, hi, hp]
      · simp [indexed, hi, hsingle, hp]

/-- C9 witness: the `id` column (auto-increment with attached primary
single-column index) emits `table.increments('id').primary();` — primary
marker present, nullability, default and index markers all empty. -/
theorem C9_clause_order_and_markers_witness :
    columnClause "id" idCol =
      Except.ok ("\t\t\ttable.increments('id').primary();", []) ∧
    primary idCol = ".primary()" ∧ nullable idCol = "" ∧ indexed idCol = "" := by
  have h := C9_clause_order_and_markers "id" idCol ⟨"increments", none⟩ "" []
    rfl rfl
  exact ⟨h.1, (h.2 pkIndex rfl rfl).1 rfl⟩

/-- C10: every destructive lifecycle operation throws the production-guard
error before issuing any database statement when the effective target
environment is `production` — for `dropDb` also when `NODE_ENV` is
`production`; for the other three the env argument falls back to `NODE_ENV`
when empty before the check. -/
theorem C10_production_guard (nodeEnv env oldDbName newDbName random : String)
    (kf : String → Option dbConfig) :
    ((nodeEnv = "production" ∨ env = "production") →
       dropDb nodeEnv env kf = ([], some prodError)) ∧
    ((if env = "" then nodeEnv else env) = "production" →
       (copyDb nodeEnv oldDbName newDbName env kf = ([], some prodError) ∧
        copyDbForTest nodeEnv env random kf = ([], some prodError) ∧
        rollbackCopyDbForTest nodeEnv env kf = ([], some prodError))) := by
  constructor
  · intro h
    simp [dropDb, h]
  · intro h
    exact ⟨by simp [copyDb, h], by simp [copyDbForTest, h],
      by simp [rollbackCopyDbForTest, h]⟩

/-- C10 witness: all four guards at the environment `production` (with
`NODE_ENV` set to `development`): no statement is issued, the guard error is
thrown. -/
theorem C10_production_guard_witness :
    dropDb "development" "production" noKnexfile = ([], some prodError) ∧
    copyDb "development" "olddb" "newdb" "production" noKnexfile =
      ([], some prodError) ∧
    copyDbForTest "development" "production" "abc" noKnexfile =
      ([], some prodError) ∧
    rollbackCopyDbForTest "development" "production" noKnexfile =
      ([], some prodError) := by
  have h := C10_production_guard "development" "production" "olddb" "newdb"
    "abc" noKnexfile
  exact ⟨h.1 (Or.inr rfl), (h.2 (by decide)).1, (h.2 (by decide)).2.1,
    (h.2 (by decide)).2.2⟩
